import Mathlib

/-!
# Verification of the `byteordered` crate

A shallow embedding of the `byteordered` library (src/src/base.rs, src/src/wrap.rs)
and proofs of the specified properties.

Modelling conventions:
* A byte is a `Nat` kept below 256 by construction (every encoder emits `% 256`).
* A reader (`Read` endpoint) is a `Rd`: the list of bytes still available, plus
  an optional I/O fault code that the endpoint raises once the bytes run out
  (`none` models a clean end of stream).
* A writer (`Write` endpoint) is a `Wr`: the bytes produced so far, plus an
  optional fault code; a faulted sink rejects every write.
* I/O errors are `IoError`: `unexpectedEof` (the classification `read_exact`
  gives a short read) or `other c` (any other fault, propagated verbatim).
* Fixed-width integers are `Nat` (unsigned) / `Int` (signed, two's complement
  via `toUnsigned`/`toSigned`); `f32`/`f64` values are represented by their
  IEEE-754 bit patterns (`Nat`), which is exact because the byteorder float
  codec is pure bit reinterpretation (`from_bits`/`to_bits`).
* The external collaborator `byteorder` (`ReadBytesExt`/`WriteBytesExt`,
  `LittleEndian`/`BigEndian` codecs) is embedded by its documented standard
  layout: little endian is least-significant byte first, big endian is the
  byte-reversal thereof; `read_uN` is `read_exact(N)` then decode, `write_uN`
  is encode then `write_all`, `read_uN_into` is `read_exact(N * len)` then
  chunkwise decode.
-/

/-- I/O error kinds, as classified by `std::io`:
the `UnexpectedEof` kind produced by `read_exact` on a short read,
and any other fault of the underlying endpoint (carried as a code). -/
inductive IoError where
  | unexpectedEof
  | other (code : Nat)
deriving DecidableEq, Repr

/-- A byte source (`Read` endpoint): the bytes still available, and the fault
the endpoint raises after they are exhausted (`none` = clean end of stream). -/
structure Rd where
  bytes : List Nat
  fault : Option Nat
deriving DecidableEq, Repr

/-- A byte sink (`Write` endpoint): the bytes produced so far, and an optional
fault; a faulted sink rejects any further write with that fault. -/
structure Wr where
  bytes : List Nat
  fault : Option Nat
deriving DecidableEq, Repr

/-- The empty, healthy sink (a fresh `Vec<u8>`). -/
def Wr.empty : Wr := ⟨[], none⟩

/-- `Read::read_exact` over an `Rd`: if `n` bytes are available they are
consumed and returned; otherwise a clean end of stream is classified as
`UnexpectedEof` and an endpoint fault is propagated verbatim. -/
def readExact (r : Rd) (n : Nat) : Except IoError (List Nat × Rd) :=
  if n ≤ r.bytes.length then
    .ok (r.bytes.take n, ⟨r.bytes.drop n, r.fault⟩)
  else
    match r.fault with
    | some c => .error (.other c)
    | none => .error .unexpectedEof

/-- `Write::write_all` over a `Wr`: appends the bytes, or fails with the
sink's fault. -/
def writeAll (w : Wr) (bs : List Nat) : Except IoError Wr :=
  match w.fault with
  | some c => .error (.other c)
  | none => .ok ⟨w.bytes ++ bs, none⟩

/-- Little-endian decoding: first byte is least significant
(the `byteorder::LittleEndian` codec). -/
def leDecode : List Nat → Nat
  | [] => 0
  | b :: rest => b + 256 * leDecode rest

/-- Little-endian encoding of `v` into `w` bytes
(the `byteorder::LittleEndian` codec). -/
def leEncode : Nat → Nat → List Nat
  | 0, _ => []
  | w + 1, v => (v % 256) :: leEncode w (v / 256)

/-- The static byte-order marker types of `byteorder`
(`LittleEndian` / `BigEndian`); `NativeEndian` and `NetworkEndian` are type
aliases resolved below. -/
inductive ByteOrderTag where
  | le
  | be
deriving DecidableEq, Repr

/-- `byteorder::NativeEndian` is a type alias for `LittleEndian`, matching the
build configuration `target_endian = "little"` of this platform. -/
def nativeEndianTag : ByteOrderTag := .le

/-- `byteorder::NetworkEndian` is a type alias for `BigEndian`. -/
def networkEndianTag : ByteOrderTag := .be

/-- `HasOpposite` on the marker types: `LittleEndian.Opposite = BigEndian`
and vice versa (src/src/base.rs lines 15-21). -/
def ByteOrderTag.opposite : ByteOrderTag → ByteOrderTag
  | .le => .be
  | .be => .le

/-- The `StaticNative` impls (src/src/base.rs lines 30-48): under
`target_endian = "little"`, `NativeEndian` (= `LittleEndian`) is native and
`BigEndian` is not. -/
def ByteOrderTag.staticIsNative : ByteOrderTag → Bool
  | .le => true
  | .be => false

/-- `ByteOrder::read_uint`-style decoding for a marker type: big endian
decodes the byte-reversed sequence. -/
def tagDecode (t : ByteOrderTag) (bs : List Nat) : Nat :=
  match t with
  | .le => leDecode bs
  | .be => leDecode bs.reverse

/-- `ByteOrder::write_uint`-style encoding for a marker type. -/
def tagEncode (t : ByteOrderTag) (w v : Nat) : List Nat :=
  match t with
  | .le => leEncode w v
  | .be => (leEncode w v).reverse

/-- Two's-complement reinterpretation of a `w`-byte unsigned value as signed. -/
def toSigned (w v : Nat) : Int :=
  if 2 * v < 256 ^ w then (v : Int) else (v : Int) - 256 ^ w

/-- Two's-complement reinterpretation of a signed value as a `w`-byte
unsigned value. -/
def toUnsigned (w : Nat) (x : Int) : Nat :=
  (x % (256 ^ w : Int)).toNat

/-- `byteorder::ReadBytesExt::read_uN::<T>`: read exactly `w` bytes and
decode them per the marker type. -/
def rbRead (t : ByteOrderTag) (w : Nat) (r : Rd) : Except IoError (Nat × Rd) :=
  match readExact r w with
  | .error e => .error e
  | .ok (bs, r') => .ok (tagDecode t bs, r')

/-- `byteorder::ReadBytesExt::read_iN::<T>`: as `rbRead`, reinterpreted as
two's complement. -/
def rbReadI (t : ByteOrderTag) (w : Nat) (r : Rd) : Except IoError (Int × Rd) :=
  match readExact r w with
  | .error e => .error e
  | .ok (bs, r') => .ok (toSigned w (tagDecode t bs), r')

/-- Decode `n` successive `w`-byte chunks. -/
def chunksDecode (t : ByteOrderTag) (w : Nat) : Nat → List Nat → List Nat
  | 0, _ => []
  | n + 1, bs => tagDecode t (bs.take w) :: chunksDecode t w n (bs.drop w)

/-- `byteorder::ReadBytesExt::read_uN_into::<T>` with a destination of `n`
elements: one `read_exact` over the whole `w * n`-byte buffer, then chunkwise
decoding. -/
def rbReadInto (t : ByteOrderTag) (w n : Nat) (r : Rd) :
    Except IoError (List Nat × Rd) :=
  match readExact r (w * n) with
  | .error e => .error e
  | .ok (bs, r') => .ok (chunksDecode t w n bs, r')

/-- `byteorder::ReadBytesExt::read_iN_into::<T>`: the signed variant of
`rbReadInto`. -/
def rbReadIntoI (t : ByteOrderTag) (w n : Nat) (r : Rd) :
    Except IoError (List Int × Rd) :=
  match readExact r (w * n) with
  | .error e => .error e
  | .ok (bs, r') => .ok ((chunksDecode t w n bs).map (toSigned w), r')

/-- `byteorder::WriteBytesExt::write_uN::<T>`: encode per the marker type and
`write_all` the `w` bytes. -/
def rbWrite (t : ByteOrderTag) (w : Nat) (sink : Wr) (v : Nat) :
    Except IoError Wr :=
  writeAll sink (tagEncode t w v)

/-- `byteorder::WriteBytesExt::write_iN::<T>`: the signed variant of
`rbWrite`. -/
def rbWriteI (t : ByteOrderTag) (w : Nat) (sink : Wr) (x : Int) :
    Except IoError Wr :=
  writeAll sink (tagEncode t w (toUnsigned w x))

/-- `StaticEndianness<E>` (src/src/base.rs line 519): a byte order known at
compile time. In Rust the order is the type parameter `E`; here the marker
type it is instantiated at is the `tag` field. -/
structure StaticEndianness where
  tag : ByteOrderTag
deriving DecidableEq, Repr

/-- `StaticEndianness::<NativeEndian>::native()` (src/src/base.rs lines
536-542). -/
def StaticEndianness.native : StaticEndianness := ⟨nativeEndianTag⟩

/-- `impl Endian for StaticEndianness<E>`: `into_opposite` moves to the
opposite marker type (src/src/base.rs lines 632-634). -/
def StaticEndianness.into_opposite (s : StaticEndianness) : StaticEndianness :=
  ⟨s.tag.opposite⟩

/-- `impl Endian for StaticEndianness<E>`: `is_native` delegates to
`E::is_native()` (src/src/base.rs lines 637-640). -/
def StaticEndianness.is_native (s : StaticEndianness) : Bool :=
  s.tag.staticIsNative

/-- `fn_static_endianness_read!(read_i16, E, i16)`: delegate to
`src.read_i16::<E>()`. -/
def StaticEndianness.read_i16 (s : StaticEndianness) (src : Rd) : Except IoError (Int × Rd) :=
  rbReadI s.tag 2 src

def StaticEndianness.read_u16 (s : StaticEndianness) (src : Rd) : Except IoError (Nat × Rd) :=
  rbRead s.tag 2 src

def StaticEndianness.read_i32 (s : StaticEndianness) (src : Rd) : Except IoError (Int × Rd) :=
  rbReadI s.tag 4 src

def StaticEndianness.read_u32 (s : StaticEndianness) (src : Rd) : Except IoError (Nat × Rd) :=
  rbRead s.tag 4 src

def StaticEndianness.read_i64 (s : StaticEndianness) (src : Rd) : Except IoError (Int × Rd) :=
  rbReadI s.tag 8 src

def StaticEndianness.read_u64 (s : StaticEndianness) (src : Rd) : Except IoError (Nat × Rd) :=
  rbRead s.tag 8 src

def StaticEndianness.read_i128 (s : StaticEndianness) (src : Rd) : Except IoError (Int × Rd) :=
  rbReadI s.tag 16 src

def StaticEndianness.read_u128 (s : StaticEndianness) (src : Rd) : Except IoError (Nat × Rd) :=
  rbRead s.tag 16 src

/-- `read_f32` yields the IEEE-754 bit pattern of the decoded 4 bytes
(`f32::from_bits` is the identity on bit patterns in this embedding). -/
def StaticEndianness.read_f32 (s : StaticEndianness) (src : Rd) : Except IoError (Nat × Rd) :=
  rbRead s.tag 4 src

def StaticEndianness.read_f64 (s : StaticEndianness) (src : Rd) : Except IoError (Nat × Rd) :=
  rbRead s.tag 8 src

/-- `fn_static_endianness_read_into!` instances: delegate to
`src.read_*_into::<E>(dst)`; `n` is the destination length. -/
def StaticEndianness.read_i16_into (s : StaticEndianness) (src : Rd) (n : Nat) :
    Except IoError (List Int × Rd) :=
  rbReadIntoI s.tag 2 n src

def StaticEndianness.read_u16_into (s : StaticEndianness) (src : Rd) (n : Nat) :
    Except IoError (List Nat × Rd) :=
  rbReadInto s.tag 2 n src

def StaticEndianness.read_i32_into (s : StaticEndianness) (src : Rd) (n : Nat) :
    Except IoError (List Int × Rd) :=
  rbReadIntoI s.tag 4 n src

def StaticEndianness.read_u32_into (s : StaticEndianness) (src : Rd) (n : Nat) :
    Except IoError (List Nat × Rd) :=
  rbReadInto s.tag 4 n src

def StaticEndianness.read_i64_into (s : StaticEndianness) (src : Rd) (n : Nat) :
    Except IoError (List Int × Rd) :=
  rbReadIntoI s.tag 8 n src

def StaticEndianness.read_u64_into (s : StaticEndianness) (src : Rd) (n : Nat) :
    Except IoError (List Nat × Rd) :=
  rbReadInto s.tag 8 n src

def StaticEndianness.read_i128_into (s : StaticEndianness) (src : Rd) (n : Nat) :
    Except IoError (List Int × Rd) :=
  rbReadIntoI s.tag 16 n src

def StaticEndianness.read_u128_into (s : StaticEndianness) (src : Rd) (n : Nat) :
    Except IoError (List Nat × Rd) :=
  rbReadInto s.tag 16 n src

def StaticEndianness.read_f32_into (s : StaticEndianness) (src : Rd) (n : Nat) :
    Except IoError (List Nat × Rd) :=
  rbReadInto s.tag 4 n src

def StaticEndianness.read_f64_into (s : StaticEndianness) (src : Rd) (n : Nat) :
    Except IoError (List Nat × Rd) :=
  rbReadInto s.tag 8 n src

/-- `fn_static_endianness_write!` instances: delegate to
`sink.write_*::<E>(x)`. -/
def StaticEndianness.write_i16 (s : StaticEndianness) (sink : Wr) (x : Int) : Except IoError Wr :=
  rbWriteI s.tag 2 sink x

def StaticEndianness.write_u16 (s : StaticEndianness) (sink : Wr) (x : Nat) : Except IoError Wr :=
  rbWrite s.tag 2 sink x

def StaticEndianness.write_i32 (s : StaticEndianness) (sink : Wr) (x : Int) : Except IoError Wr :=
  rbWriteI s.tag 4 sink x

def StaticEndianness.write_u32 (s : StaticEndianness) (sink : Wr) (x : Nat) : Except IoError Wr :=
  rbWrite s.tag 4 sink x

def StaticEndianness.write_i64 (s : StaticEndianness) (sink : Wr) (x : Int) : Except IoError Wr :=
  rbWriteI s.tag 8 sink x

def StaticEndianness.write_u64 (s : StaticEndianness) (sink : Wr) (x : Nat) : Except IoError Wr :=
  rbWrite s.tag 8 sink x

def StaticEndianness.write_i128 (s : StaticEndianness) (sink : Wr) (x : Int) : Except IoError Wr :=
  rbWriteI s.tag 16 sink x

def StaticEndianness.write_u128 (s : StaticEndianness) (sink : Wr) (x : Nat) : Except IoError Wr :=
  rbWrite s.tag 16 sink x

def StaticEndianness.write_f32 (s : StaticEndianness) (sink : Wr) (x : Nat) : Except IoError Wr :=
  rbWrite s.tag 4 sink x

def StaticEndianness.write_f64 (s : StaticEndianness) (sink : Wr) (x : Nat) : Except IoError Wr :=
  rbWrite s.tag 8 sink x

/-- The run-time byte order enum `Endianness` (src/src/base.rs lines
687-693). -/
inductive Endianness where
  | Little
  | Big
deriving DecidableEq, Repr

/-- `Endianness::native()` under `target_endian = "little"`
(src/src/base.rs lines 832-836). -/
def Endianness.native : Endianness := .Little

/-- `Endianness::le_iff` (src/src/base.rs lines 860-867). -/
def Endianness.le_iff (e : Bool) : Endianness :=
  if e then .Little else .Big

/-- `Endianness::be_iff` (src/src/base.rs lines 878-885). -/
def Endianness.be_iff (e : Bool) : Endianness :=
  if e then .Big else .Little

/-- `Endianness::to_opposite` (src/src/base.rs lines 888-895). -/
def Endianness.to_opposite (e : Endianness) : Endianness :=
  if e = .Little then .Big else .Little

/-- `impl Endian for Endianness`: `into_opposite` calls `to_opposite`
(src/src/base.rs lines 784-787). -/
def Endianness.into_opposite (e : Endianness) : Endianness :=
  e.to_opposite

/-- `impl Endian for Endianness`: `is_native` compares with
`Endianness::native()` (src/src/base.rs lines 789-792). -/
def Endianness.is_native (e : Endianness) : Bool :=
  e = Endianness.native

/-- `fn_runtime_endianness_read!(read_i16, i16)`: dispatch on the enumerator
and delegate to `src.read_i16::<LittleEndian/BigEndian>()`. -/
def Endianness.read_i16 : Endianness → Rd → Except IoError (Int × Rd)
  | .Little, src => rbReadI .le 2 src
  | .Big, src => rbReadI .be 2 src

def Endianness.read_u16 : Endianness → Rd → Except IoError (Nat × Rd)
  | .Little, src => rbRead .le 2 src
  | .Big, src => rbRead .be 2 src

def Endianness.read_i32 : Endianness → Rd → Except IoError (Int × Rd)
  | .Little, src => rbReadI .le 4 src
  | .Big, src => rbReadI .be 4 src

def Endianness.read_u32 : Endianness → Rd → Except IoError (Nat × Rd)
  | .Little, src => rbRead .le 4 src
  | .Big, src => rbRead .be 4 src

def Endianness.read_i64 : Endianness → Rd → Except IoError (Int × Rd)
  | .Little, src => rbReadI .le 8 src
  | .Big, src => rbReadI .be 8 src

def Endianness.read_u64 : Endianness → Rd → Except IoError (Nat × Rd)
  | .Little, src => rbRead .le 8 src
  | .Big, src => rbRead .be 8 src

def Endianness.read_i128 : Endianness → Rd → Except IoError (Int × Rd)
  | .Little, src => rbReadI .le 16 src
  | .Big, src => rbReadI .be 16 src

def Endianness.read_u128 : Endianness → Rd → Except IoError (Nat × Rd)
  | .Little, src => rbRead .le 16 src
  | .Big, src => rbRead .be 16 src

def Endianness.read_f32 : Endianness → Rd → Except IoError (Nat × Rd)
  | .Little, src => rbRead .le 4 src
  | .Big, src => rbRead .be 4 src

def Endianness.read_f64 : Endianness → Rd → Except IoError (Nat × Rd)
  | .Little, src => rbRead .le 8 src
  | .Big, src => rbRead .be 8 src

/-- `fn_runtime_endianness_read_into!` instances; `n` is the destination
length. -/
def Endianness.read_i16_into : Endianness → Rd → Nat → Except IoError (List Int × Rd)
  | .Little, src, n => rbReadIntoI .le 2 n src
  | .Big, src, n => rbReadIntoI .be 2 n src

def Endianness.read_u16_into : Endianness → Rd → Nat → Except IoError (List Nat × Rd)
  | .Little, src, n => rbReadInto .le 2 n src
  | .Big, src, n => rbReadInto .be 2 n src

def Endianness.read_i32_into : Endianness → Rd → Nat → Except IoError (List Int × Rd)
  | .Little, src, n => rbReadIntoI .le 4 n src
  | .Big, src, n => rbReadIntoI .be 4 n src

def Endianness.read_u32_into : Endianness → Rd → Nat → Except IoError (List Nat × Rd)
  | .Little, src, n => rbReadInto .le 4 n src
  | .Big, src, n => rbReadInto .be 4 n src

def Endianness.read_i64_into : Endianness → Rd → Nat → Except IoError (List Int × Rd)
  | .Little, src, n => rbReadIntoI .le 8 n src
  | .Big, src, n => rbReadIntoI .be 8 n src

def Endianness.read_u64_into : Endianness → Rd → Nat → Except IoError (List Nat × Rd)
  | .Little, src, n => rbReadInto .le 8 n src
  | .Big, src, n => rbReadInto .be 8 n src

def Endianness.read_i128_into : Endianness → Rd → Nat → Except IoError (List Int × Rd)
  | .Little, src, n => rbReadIntoI .le 16 n src
  | .Big, src, n => rbReadIntoI .be 16 n src

def Endianness.read_u128_into : Endianness → Rd → Nat → Except IoError (List Nat × Rd)
  | .Little, src, n => rbReadInto .le 16 n src
  | .Big, src, n => rbReadInto .be 16 n src

def Endianness.read_f32_into : Endianness → Rd → Nat → Except IoError (List Nat × Rd)
  | .Little, src, n => rbReadInto .le 4 n src
  | .Big, src, n => rbReadInto .be 4 n src

def Endianness.read_f64_into : Endianness → Rd → Nat → Except IoError (List Nat × Rd)
  | .Little, src, n => rbReadInto .le 8 n src
  | .Big, src, n => rbReadInto .be 8 n src

/-- `fn_runtime_endianness_write!` instances. -/
def Endianness.write_i16 : Endianness → Wr → Int → Except IoError Wr
  | .Little, sink, v => rbWriteI .le 2 sink v
  | .Big, sink, v => rbWriteI .be 2 sink v

def Endianness.write_u16 : Endianness → Wr → Nat → Except IoError Wr
  | .Little, sink, v => rbWrite .le 2 sink v
  | .Big, sink, v => rbWrite .be 2 sink v

def Endianness.write_i32 : Endianness → Wr → Int → Except IoError Wr
  | .Little, sink, v => rbWriteI .le 4 sink v
  | .Big, sink, v => rbWriteI .be 4 sink v

def Endianness.write_u32 : Endianness → Wr → Nat → Except IoError Wr
  | .Little, sink, v => rbWrite .le 4 sink v
  | .Big, sink, v => rbWrite .be 4 sink v

def Endianness.write_i64 : Endianness → Wr → Int → Except IoError Wr
  | .Little, sink, v => rbWriteI .le 8 sink v
  | .Big, sink, v => rbWriteI .be 8 sink v

def Endianness.write_u64 : Endianness → Wr → Nat → Except IoError Wr
  | .Little, sink, v => rbWrite .le 8 sink v
  | .Big, sink, v => rbWrite .be 8 sink v

def Endianness.write_i128 : Endianness → Wr → Int → Except IoError Wr
  | .Little, sink, v => rbWriteI .le 16 sink v
  | .Big, sink, v => rbWriteI .be 16 sink v

def Endianness.write_u128 : Endianness → Wr → Nat → Except IoError Wr
  | .Little, sink, v => rbWrite .le 16 sink v
  | .Big, sink, v => rbWrite .be 16 sink v

def Endianness.write_f32 : Endianness → Wr → Nat → Except IoError Wr
  | .Little, sink, v => rbWrite .le 4 sink v
  | .Big, sink, v => rbWrite .be 4 sink v

def Endianness.write_f64 : Endianness → Wr → Nat → Except IoError Wr
  | .Little, sink, v => rbWrite .le 8 sink v
  | .Big, sink, v => rbWrite .be 8 sink v

/-- `ByteOrdered<T, E>` (src/src/wrap.rs lines 16-19): an endpoint paired
with a byte-order capability. -/
structure ByteOrdered (T : Type) (E : Type) where
  inner : T
  endianness : E
deriving DecidableEq, Repr

/-- `ByteOrdered::le` (src/src/wrap.rs lines 34-40): the default
`StaticEndianness<LittleEndian>` capability. -/
def ByteOrdered.le {T : Type} (inner : T) : ByteOrdered T StaticEndianness :=
  ⟨inner, ⟨.le⟩⟩

/-- `ByteOrdered::be` (src/src/wrap.rs lines 42-48). -/
def ByteOrdered.be {T : Type} (inner : T) : ByteOrdered T StaticEndianness :=
  ⟨inner, ⟨.be⟩⟩

/-- `ByteOrdered::native` (src/src/wrap.rs lines 50-58):
`StaticEndianness<NativeEndian>`. -/
def ByteOrdered.native {T : Type} (inner : T) : ByteOrdered T StaticEndianness :=
  ⟨inner, ⟨nativeEndianTag⟩⟩

/-- `ByteOrdered::network` (src/src/wrap.rs lines 60-66):
`StaticEndianness<NetworkEndian>`. -/
def ByteOrdered.network {T : Type} (inner : T) : ByteOrdered T StaticEndianness :=
  ⟨inner, ⟨networkEndianTag⟩⟩

/-- `ByteOrdered::new` (src/src/wrap.rs lines 119-121). -/
def ByteOrdered.new {T E : Type} (inner : T) (endianness : E) : ByteOrdered T E :=
  ⟨inner, endianness⟩

/-- `ByteOrdered::runtime` (src/src/wrap.rs lines 85-88). -/
def ByteOrdered.runtime {T : Type} (inner : T) (endianness : Endianness) :
    ByteOrdered T Endianness :=
  ByteOrdered.new inner endianness

/-- `ByteOrdered::into_inner` (src/src/wrap.rs lines 125-128). -/
def ByteOrdered.into_inner {T E : Type} (b : ByteOrdered T E) : T :=
  b.inner

/-- `ByteOrdered::into_parts` (src/src/wrap.rs lines 150-153). -/
def ByteOrdered.into_parts {T E : Type} (b : ByteOrdered T E) : T × E :=
  (b.inner, b.endianness)

/-- `ByteOrdered::map` (src/src/wrap.rs lines 157-164). -/
def ByteOrdered.map {T E U : Type} (b : ByteOrdered T E) (f : T → U) :
    ByteOrdered U E :=
  ByteOrdered.new (f b.into_parts.1) b.into_parts.2

/-- `ByteOrdered::into_endianness` (src/src/wrap.rs lines 167-170). -/
def ByteOrdered.into_endianness {T E E₂ : Type} (b : ByteOrdered T E) (endianness : E₂) :
    ByteOrdered T E₂ :=
  ByteOrdered.new b.inner endianness

/-- `ByteOrdered::set_endianness` (src/src/wrap.rs lines 180-183): replaces
the held capability in place. -/
def ByteOrdered.set_endianness {T E : Type} (b : ByteOrdered T E) (endianness : E) :
    ByteOrdered T E :=
  { b with endianness := endianness }

/-- `ByteOrdered::into_le` (src/src/wrap.rs lines 187-190). -/
def ByteOrdered.into_le {T E : Type} (b : ByteOrdered T E) : ByteOrdered T StaticEndianness :=
  ByteOrdered.le b.inner

/-- `ByteOrdered::into_be` (src/src/wrap.rs lines 194-197). -/
def ByteOrdered.into_be {T E : Type} (b : ByteOrdered T E) : ByteOrdered T StaticEndianness :=
  ByteOrdered.be b.inner

/-- `ByteOrdered::into_native` (src/src/wrap.rs lines 201-204). -/
def ByteOrdered.into_native {T E : Type} (b : ByteOrdered T E) : ByteOrdered T StaticEndianness :=
  ByteOrdered.native b.inner

/-- The `Endian::into_opposite` operation, as available to the wrapper's
generic `into_opposite` (the `E: Endian` bound at src/src/wrap.rs lines
206-217). Both implementations stay within their own capability kind at this
level of modelling. -/
class EndianOpposite (E : Type) where
  into_opposite : E → E

instance : EndianOpposite StaticEndianness :=
  ⟨StaticEndianness.into_opposite⟩

instance : EndianOpposite Endianness :=
  ⟨Endianness.into_opposite⟩

/-- `ByteOrdered::into_opposite` (src/src/wrap.rs lines 206-217). -/
def ByteOrdered.into_opposite {T E : Type} [EndianOpposite E] (b : ByteOrdered T E) :
    ByteOrdered T E :=
  ⟨b.inner, EndianOpposite.into_opposite b.endianness⟩

/-- `ByteOrdered::endianness` (src/src/wrap.rs lines 219-226). -/
def ByteOrdered.get_endianness {T E : Type} (b : ByteOrdered T E) : E :=
  b.endianness

/-- `ByteOrdered::read_u8` (src/src/wrap.rs lines 353-356): delegates to
`byteorder::ReadBytesExt::read_u8`, which reads one byte from the wrapper's
pass-through `Read` impl; the held capability is not consulted. -/
def ByteOrdered.read_u8 {E : Type} (b : ByteOrdered Rd E) :
    Except IoError (Nat × ByteOrdered Rd E) :=
  match readExact b.inner 1 with
  | .error e => .error e
  | .ok (bs, r') => .ok (leDecode bs, ⟨r', b.endianness⟩)

/-- `ByteOrdered::read_i8` (src/src/wrap.rs lines 321-324): the signed
single-byte read; the held capability is not consulted. -/
def ByteOrdered.read_i8 {E : Type} (b : ByteOrdered Rd E) :
    Except IoError (Int × ByteOrdered Rd E) :=
  match readExact b.inner 1 with
  | .error e => .error e
  | .ok (bs, r') => .ok (toSigned 1 (leDecode bs), ⟨r', b.endianness⟩)

/-- `ByteOrdered::write_u8` (src/src/wrap.rs lines 705-707): writes the single
byte directly to the inner writer; the held capability is not consulted. -/
def ByteOrdered.write_u8 {E : Type} (b : ByteOrdered Wr E) (x : Nat) :
    Except IoError (ByteOrdered Wr E) :=
  match writeAll b.inner [x % 256] with
  | .error e => .error e
  | .ok w' => .ok ⟨w', b.endianness⟩

/-- `ByteOrdered::write_i8` (src/src/wrap.rs lines 690-692). -/
def ByteOrdered.write_i8 {E : Type} (b : ByteOrdered Wr E) (x : Int) :
    Except IoError (ByteOrdered Wr E) :=
  match writeAll b.inner [toUnsigned 1 x] with
  | .error e => .error e
  | .ok w' => .ok ⟨w', b.endianness⟩

/-- `ByteOrdered::read_u64` for the run-time capability (src/src/wrap.rs
lines 536-539): delegates to the held `Endianness`'s `read_u64` on the inner
reader. -/
def ByteOrdered.read_u64 (b : ByteOrdered Rd Endianness) :
    Except IoError (Nat × ByteOrdered Rd Endianness) :=
  match b.endianness.read_u64 b.inner with
  | .error e => .error e
  | .ok (v, r') => .ok (v, ⟨r', b.endianness⟩)

/-- One numeric operation a `with_order!` block can perform against its
ordered view of the endpoints: a read from the reader endpoint or a write of
a given value to the writer endpoint, at each supported width. -/
inductive BlockOp where
  | opReadI16
  | opReadU16
  | opReadI32
  | opReadU32
  | opReadI64
  | opReadU64
  | opReadI128
  | opReadU128
  | opReadF32
  | opReadF64
  | opWriteI16 (v : Int)
  | opWriteU16 (v : Nat)
  | opWriteI32 (v : Int)
  | opWriteU32 (v : Nat)
  | opWriteI64 (v : Int)
  | opWriteU64 (v : Nat)
  | opWriteI128 (v : Int)
  | opWriteU128 (v : Nat)
  | opWriteF32 (v : Nat)
  | opWriteF64 (v : Nat)
deriving DecidableEq, Repr

/-- Run one block operation through a statically dispatched capability
(the wrapper's numeric methods delegate directly to the held
`StaticEndianness`); reads emit their value (as `Int`). -/
def stepStatic (s : StaticEndianness) (op : BlockOp) (st : Rd × Wr) :
    Except IoError (List Int × (Rd × Wr)) :=
  match op with
  | .opReadI16 => (s.read_i16 st.1).map fun p => ([p.1], (p.2, st.2))
  | .opReadU16 => (s.read_u16 st.1).map fun p => ([(p.1 : Int)], (p.2, st.2))
  | .opReadI32 => (s.read_i32 st.1).map fun p => ([p.1], (p.2, st.2))
  | .opReadU32 => (s.read_u32 st.1).map fun p => ([(p.1 : Int)], (p.2, st.2))
  | .opReadI64 => (s.read_i64 st.1).map fun p => ([p.1], (p.2, st.2))
  | .opReadU64 => (s.read_u64 st.1).map fun p => ([(p.1 : Int)], (p.2, st.2))
  | .opReadI128 => (s.read_i128 st.1).map fun p => ([p.1], (p.2, st.2))
  | .opReadU128 => (s.read_u128 st.1).map fun p => ([(p.1 : Int)], (p.2, st.2))
  | .opReadF32 => (s.read_f32 st.1).map fun p => ([(p.1 : Int)], (p.2, st.2))
  | .opReadF64 => (s.read_f64 st.1).map fun p => ([(p.1 : Int)], (p.2, st.2))
  | .opWriteI16 v => (s.write_i16 st.2 v).map fun w => ([], (st.1, w))
  | .opWriteU16 v => (s.write_u16 st.2 v).map fun w => ([], (st.1, w))
  | .opWriteI32 v => (s.write_i32 st.2 v).map fun w => ([], (st.1, w))
  | .opWriteU32 v => (s.write_u32 st.2 v).map fun w => ([], (st.1, w))
  | .opWriteI64 v => (s.write_i64 st.2 v).map fun w => ([], (st.1, w))
  | .opWriteU64 v => (s.write_u64 st.2 v).map fun w => ([], (st.1, w))
  | .opWriteI128 v => (s.write_i128 st.2 v).map fun w => ([], (st.1, w))
  | .opWriteU128 v => (s.write_u128 st.2 v).map fun w => ([], (st.1, w))
  | .opWriteF32 v => (s.write_f32 st.2 v).map fun w => ([], (st.1, w))
  | .opWriteF64 v => (s.write_f64 st.2 v).map fun w => ([], (st.1, w))

/-- Run one block operation through the run-time dispatched capability
(the wrapper's numeric methods delegate to the held `Endianness`). -/
def stepRuntime (e : Endianness) (op : BlockOp) (st : Rd × Wr) :
    Except IoError (List Int × (Rd × Wr)) :=
  match op with
  | .opReadI16 => (e.read_i16 st.1).map fun p => ([p.1], (p.2, st.2))
  | .opReadU16 => (e.read_u16 st.1).map fun p => ([(p.1 : Int)], (p.2, st.2))
  | .opReadI32 => (e.read_i32 st.1).map fun p => ([p.1], (p.2, st.2))
  | .opReadU32 => (e.read_u32 st.1).map fun p => ([(p.1 : Int)], (p.2, st.2))
  | .opReadI64 => (e.read_i64 st.1).map fun p => ([p.1], (p.2, st.2))
  | .opReadU64 => (e.read_u64 st.1).map fun p => ([(p.1 : Int)], (p.2, st.2))
  | .opReadI128 => (e.read_i128 st.1).map fun p => ([p.1], (p.2, st.2))
  | .opReadU128 => (e.read_u128 st.1).map fun p => ([(p.1 : Int)], (p.2, st.2))
  | .opReadF32 => (e.read_f32 st.1).map fun p => ([(p.1 : Int)], (p.2, st.2))
  | .opReadF64 => (e.read_f64 st.1).map fun p => ([(p.1 : Int)], (p.2, st.2))
  | .opWriteI16 v => (e.write_i16 st.2 v).map fun w => ([], (st.1, w))
  | .opWriteU16 v => (e.write_u16 st.2 v).map fun w => ([], (st.1, w))
  | .opWriteI32 v => (e.write_i32 st.2 v).map fun w => ([], (st.1, w))
  | .opWriteU32 v => (e.write_u32 st.2 v).map fun w => ([], (st.1, w))
  | .opWriteI64 v => (e.write_i64 st.2 v).map fun w => ([], (st.1, w))
  | .opWriteU64 v => (e.write_u64 st.2 v).map fun w => ([], (st.1, w))
  | .opWriteI128 v => (e.write_i128 st.2 v).map fun w => ([], (st.1, w))
  | .opWriteU128 v => (e.write_u128 st.2 v).map fun w => ([], (st.1, w))
  | .opWriteF32 v => (e.write_f32 st.2 v).map fun w => ([], (st.1, w))
  | .opWriteF64 v => (e.write_f64 st.2 v).map fun w => ([], (st.1, w))

/-- A block of operations executed in sequence through the static capability,
stopping at the first error, collecting read results. -/
def runBlockStatic (s : StaticEndianness) : List BlockOp → Rd × Wr →
    Except IoError (List Int × (Rd × Wr))
  | [], st => .ok ([], st)
  | op :: rest, st =>
    match stepStatic s op st with
    | .error e => .error e
    | .ok (out, st') =>
      match runBlockStatic s rest st' with
      | .error e => .error e
      | .ok (outs, st'') => .ok (out ++ outs, st'')

/-- The same block executed through the run-time dispatched capability. -/
def runBlockRuntime (e : Endianness) : List BlockOp → Rd × Wr →
    Except IoError (List Int × (Rd × Wr))
  | [], st => .ok ([], st)
  | op :: rest, st =>
    match stepRuntime e op st with
    | .error er => .error er
    | .ok (out, st') =>
      match runBlockRuntime e rest st' with
      | .error er => .error er
      | .ok (outs, st'') => .ok (out ++ outs, st'')

/-- Modelled from the spec: the `with_order!` Scoped Dispatch macro is not
present under src/ (only its tests in src/tests/macro.rs are). Per the spec
(sections 4.3 and 9), it resolves the run-time order value once into the
matching `StaticEndianness` provider — one branch, evaluated once before the
block runs — and executes the block monomorphized against statically-ordered
wrapper(s) over the given endpoint(s); exactly one of the two textual copies
of the block executes, selected solely by the supplied order value. -/
def with_order (e : Endianness) (prog : List BlockOp) (st : Rd × Wr) :
    Except IoError (List Int × (Rd × Wr)) :=
  match e with
  | .Little => runBlockStatic ⟨.le⟩ prog st
  | .Big => runBlockStatic ⟨.be⟩ prog st

theorem leEncode_length (w v : Nat) : (leEncode w v).length = w := by
  induction w generalizing v with
  | zero => rfl
  | succ w ih => simp [leEncode, ih]

theorem leDecode_leEncode (w v : Nat) (h : v < 256 ^ w) :
    leDecode (leEncode w v) = v := by
  induction w generalizing v with
  | zero =>
    simp [leEncode, leDecode]
    omega
  | succ w ih =>
    have hdiv : v / 256 < 256 ^ w := by
      rw [Nat.div_lt_iff_lt_mul (by norm_num)]
      calc v < 256 ^ (w + 1) := h
        _ = 256 ^ w * 256 := by ring
    simp [leEncode, leDecode, ih _ hdiv]
    omega

theorem tagEncode_length (t : ByteOrderTag) (w v : Nat) :
    (tagEncode t w v).length = w := by
  cases t <;> simp [tagEncode, leEncode_length]

theorem tagDecode_tagEncode (t : ByteOrderTag) (w v : Nat) (h : v < 256 ^ w) :
    tagDecode t (tagEncode t w v) = v := by
  cases t <;> simp [tagDecode, tagEncode, leDecode_leEncode w v h]

theorem toUnsigned_lt (w : Nat) (x : Int) : toUnsigned w x < 256 ^ w := by
  have hpos : (0 : Int) < 256 ^ w := by positivity
  have h := Int.emod_lt_of_pos x hpos
  have h0 := Int.emod_nonneg x (ne_of_gt hpos)
  have h256 : ((256 ^ w : Nat) : Int) = (256 : Int) ^ w := by push_cast; ring
  unfold toUnsigned
  omega

theorem toSigned_toUnsigned (w : Nat) (x : Int)
    (h1 : -(256 ^ w : Int) ≤ 2 * x) (h2 : 2 * x < 256 ^ w) :
    toSigned w (toUnsigned w x) = x := by
  have hpos : (0 : Int) < 256 ^ w := by positivity
  have h256 : ((256 ^ w : Nat) : Int) = (256 : Int) ^ w := by push_cast; ring
  by_cases hx : 0 ≤ x
  · have hxlt : x < (256 : Int) ^ w := by linarith
    have hmod : x % ((256 : Int) ^ w) = x := Int.emod_eq_of_lt hx hxlt
    have htn : ((toUnsigned w x : Nat) : Int) = x := by
      rw [toUnsigned, hmod]
      exact Int.toNat_of_nonneg hx
    rw [toSigned]
    have hcond : 2 * toUnsigned w x < 256 ^ w := by omega
    rw [if_pos hcond, htn]
  · push_neg at hx
    have e1 : (x + (256 : Int) ^ w * 1) % ((256 : Int) ^ w) = x % ((256 : Int) ^ w) :=
      Int.add_mul_emod_self_left x ((256 : Int) ^ w) 1
    have e2 : (x + (256 : Int) ^ w * 1) % ((256 : Int) ^ w) = x + (256 : Int) ^ w * 1 :=
      Int.emod_eq_of_lt (by linarith) (by linarith)
    have hmod : x % ((256 : Int) ^ w) = x + (256 : Int) ^ w := by
      rw [← e1, e2]
      ring
    have htn : ((toUnsigned w x : Nat) : Int) = x + (256 : Int) ^ w := by
      rw [toUnsigned, hmod]
      exact Int.toNat_of_nonneg (by linarith)
    rw [toSigned]
    have hcond : ¬ 2 * toUnsigned w x < 256 ^ w := by omega
    rw [if_neg hcond, htn]
    ring

theorem readExact_all (bs : List Nat) (f : Option Nat) :
    readExact ⟨bs, f⟩ bs.length = .ok (bs, ⟨[], f⟩) := by
  simp [readExact]

theorem rbRead_rbWrite (t : ByteOrderTag) (w v : Nat) (h : v < 256 ^ w) :
    ∃ sink, rbWrite t w Wr.empty v = .ok sink ∧
      rbRead t w ⟨sink.bytes, none⟩ = .ok (v, ⟨[], none⟩) := by
  refine ⟨⟨tagEncode t w v, none⟩, ?_, ?_⟩
  · simp [rbWrite, writeAll, Wr.empty]
  · have hre : readExact ⟨tagEncode t w v, none⟩ w
        = .ok (tagEncode t w v, ⟨[], none⟩) := by
      have hall := readExact_all (tagEncode t w v) none
      rwa [tagEncode_length] at hall
    simp [rbRead, hre, tagDecode_tagEncode t w v h]

theorem rbReadI_rbWriteI (t : ByteOrderTag) (w : Nat) (x : Int)
    (h1 : -(256 ^ w : Int) ≤ 2 * x) (h2 : 2 * x < 256 ^ w) :
    ∃ sink, rbWriteI t w Wr.empty x = .ok sink ∧
      rbReadI t w ⟨sink.bytes, none⟩ = .ok (x, ⟨[], none⟩) := by
  refine ⟨⟨tagEncode t w (toUnsigned w x), none⟩, ?_, ?_⟩
  · simp [rbWriteI, writeAll, Wr.empty]
  · have hre : readExact ⟨tagEncode t w (toUnsigned w x), none⟩ w
        = .ok (tagEncode t w (toUnsigned w x), ⟨[], none⟩) := by
      have hall := readExact_all (tagEncode t w (toUnsigned w x)) none
      rwa [tagEncode_length] at hall
    simp [rbReadI, hre, tagDecode_tagEncode t w _ (toUnsigned_lt w x),
      toSigned_toUnsigned w x h1 h2]

theorem rbRead_short (t : ByteOrderTag) (w : Nat) (r : Rd)
    (hf : r.fault = none) (hl : r.bytes.length < w) :
    rbRead t w r = .error .unexpectedEof := by
  have hn : ¬ w ≤ r.bytes.length := by omega
  simp [rbRead, readExact, hn, hf]

theorem rbRead_fault (t : ByteOrderTag) (w c : Nat) (r : Rd)
    (hf : r.fault = some c) (hl : r.bytes.length < w) :
    rbRead t w r = .error (.other c) := by
  have hn : ¬ w ≤ r.bytes.length := by omega
  simp [rbRead, readExact, hn, hf]

theorem rbRead_ok (t : ByteOrderTag) (w : Nat) (r : Rd)
    (hl : w ≤ r.bytes.length) :
    rbRead t w r = .ok (tagDecode t (r.bytes.take w), ⟨r.bytes.drop w, r.fault⟩) := by
  simp [rbRead, readExact, hl]

theorem rbReadI_short (t : ByteOrderTag) (w : Nat) (r : Rd)
    (hf : r.fault = none) (hl : r.bytes.length < w) :
    rbReadI t w r = .error .unexpectedEof := by
  have hn : ¬ w ≤ r.bytes.length := by omega
  simp [rbReadI, readExact, hn, hf]

theorem rbReadI_fault (t : ByteOrderTag) (w c : Nat) (r : Rd)
    (hf : r.fault = some c) (hl : r.bytes.length < w) :
    rbReadI t w r = .error (.other c) := by
  have hn : ¬ w ≤ r.bytes.length := by omega
  simp [rbReadI, readExact, hn, hf]

theorem rbReadI_ok (t : ByteOrderTag) (w : Nat) (r : Rd)
    (hl : w ≤ r.bytes.length) :
    rbReadI t w r = .ok (toSigned w (tagDecode t (r.bytes.take w)), ⟨r.bytes.drop w, r.fault⟩) := by
  simp [rbReadI, readExact, hl]

/-- C1: for every byte stream, every supported width, and both orders, the
statically dispatched capability and the run-time dispatched capability
produce identical results: `StaticEndianness<LittleEndian>`'s
read/write/read-into operations behave exactly like `Endianness::Little`'s,
and `StaticEndianness<BigEndian>`'s exactly like `Endianness::Big`'s (same
returned value or error, same bytes consumed or produced). -/
theorem static_runtime_agree (src : Rd) (sink : Wr) (n v : Nat) (x : Int) :
    (StaticEndianness.mk .le).read_i16 src = Endianness.Little.read_i16 src ∧
    (StaticEndianness.mk .le).read_u16 src = Endianness.Little.read_u16 src ∧
    (StaticEndianness.mk .le).read_i32 src = Endianness.Little.read_i32 src ∧
    (StaticEndianness.mk .le).read_u32 src = Endianness.Little.read_u32 src ∧
    (StaticEndianness.mk .le).read_i64 src = Endianness.Little.read_i64 src ∧
    (StaticEndianness.mk .le).read_u64 src = Endianness.Little.read_u64 src ∧
    (StaticEndianness.mk .le).read_i128 src = Endianness.Little.read_i128 src ∧
    (StaticEndianness.mk .le).read_u128 src = Endianness.Little.read_u128 src ∧
    (StaticEndianness.mk .le).read_f32 src = Endianness.Little.read_f32 src ∧
    (StaticEndianness.mk .le).read_f64 src = Endianness.Little.read_f64 src ∧
    (StaticEndianness.mk .le).read_i16_into src n = Endianness.Little.read_i16_into src n ∧
    (StaticEndianness.mk .le).read_u16_into src n = Endianness.Little.read_u16_into src n ∧
    (StaticEndianness.mk .le).read_i32_into src n = Endianness.Little.read_i32_into src n ∧
    (StaticEndianness.mk .le).read_u32_into src n = Endianness.Little.read_u32_into src n ∧
    (StaticEndianness.mk .le).read_i64_into src n = Endianness.Little.read_i64_into src n ∧
    (StaticEndianness.mk .le).read_u64_into src n = Endianness.Little.read_u64_into src n ∧
    (StaticEndianness.mk .le).read_i128_into src n = Endianness.Little.read_i128_into src n ∧
    (StaticEndianness.mk .le).read_u128_into src n = Endianness.Little.read_u128_into src n ∧
    (StaticEndianness.mk .le).read_f32_into src n = Endianness.Little.read_f32_into src n ∧
    (StaticEndianness.mk .le).read_f64_into src n = Endianness.Little.read_f64_into src n ∧
    (StaticEndianness.mk .le).write_i16 sink x = Endianness.Little.write_i16 sink x ∧
    (StaticEndianness.mk .le).write_u16 sink v = Endianness.Little.write_u16 sink v ∧
    (StaticEndianness.mk .le).write_i32 sink x = Endianness.Little.write_i32 sink x ∧
    (StaticEndianness.mk .le).write_u32 sink v = Endianness.Little.write_u32 sink v ∧
    (StaticEndianness.mk .le).write_i64 sink x = Endianness.Little.write_i64 sink x ∧
    (StaticEndianness.mk .le).write_u64 sink v = Endianness.Little.write_u64 sink v ∧
    (StaticEndianness.mk .le).write_i128 sink x = Endianness.Little.write_i128 sink x ∧
    (StaticEndianness.mk .le).write_u128 sink v = Endianness.Little.write_u128 sink v ∧
    (StaticEndianness.mk .le).write_f32 sink v = Endianness.Little.write_f32 sink v ∧
    (StaticEndianness.mk .le).write_f64 sink v = Endianness.Little.write_f64 sink v ∧
    (StaticEndianness.mk .be).read_i16 src = Endianness.Big.read_i16 src ∧
    (StaticEndianness.mk .be).read_u16 src = Endianness.Big.read_u16 src ∧
    (StaticEndianness.mk .be).read_i32 src = Endianness.Big.read_i32 src ∧
    (StaticEndianness.mk .be).read_u32 src = Endianness.Big.read_u32 src ∧
    (StaticEndianness.mk .be).read_i64 src = Endianness.Big.read_i64 src ∧
    (StaticEndianness.mk .be).read_u64 src = Endianness.Big.read_u64 src ∧
    (StaticEndianness.mk .be).read_i128 src = Endianness.Big.read_i128 src ∧
    (StaticEndianness.mk .be).read_u128 src = Endianness.Big.read_u128 src ∧
    (StaticEndianness.mk .be).read_f32 src = Endianness.Big.read_f32 src ∧
    (StaticEndianness.mk .be).read_f64 src = Endianness.Big.read_f64 src ∧
    (StaticEndianness.mk .be).read_i16_into src n = Endianness.Big.read_i16_into src n ∧
    (StaticEndianness.mk .be).read_u16_into src n = Endianness.Big.read_u16_into src n ∧
    (StaticEndianness.mk .be).read_i32_into src n = Endianness.Big.read_i32_into src n ∧
    (StaticEndianness.mk .be).read_u32_into src n = Endianness.Big.read_u32_into src n ∧
    (StaticEndianness.mk .be).read_i64_into src n = Endianness.Big.read_i64_into src n ∧
    (StaticEndianness.mk .be).read_u64_into src n = Endianness.Big.read_u64_into src n ∧
    (StaticEndianness.mk .be).read_i128_into src n = Endianness.Big.read_i128_into src n ∧
    (StaticEndianness.mk .be).read_u128_into src n = Endianness.Big.read_u128_into src n ∧
    (StaticEndianness.mk .be).read_f32_into src n = Endianness.Big.read_f32_into src n ∧
    (StaticEndianness.mk .be).read_f64_into src n = Endianness.Big.read_f64_into src n ∧
    (StaticEndianness.mk .be).write_i16 sink x = Endianness.Big.write_i16 sink x ∧
    (StaticEndianness.mk .be).write_u16 sink v = Endianness.Big.write_u16 sink v ∧
    (StaticEndianness.mk .be).write_i32 sink x = Endianness.Big.write_i32 sink x ∧
    (StaticEndianness.mk .be).write_u32 sink v = Endianness.Big.write_u32 sink v ∧
    (StaticEndianness.mk .be).write_i64 sink x = Endianness.Big.write_i64 sink x ∧
    (StaticEndianness.mk .be).write_u64 sink v = Endianness.Big.write_u64 sink v ∧
    (StaticEndianness.mk .be).write_i128 sink x = Endianness.Big.write_i128 sink x ∧
    (StaticEndianness.mk .be).write_u128 sink v = Endianness.Big.write_u128 sink v ∧
    (StaticEndianness.mk .be).write_f32 sink v = Endianness.Big.write_f32 sink v ∧
    (StaticEndianness.mk .be).write_f64 sink v = Endianness.Big.write_f64 sink v := by
  exact ⟨rfl, rfl, rfl, rfl, rfl, rfl, rfl, rfl, rfl, rfl, rfl, rfl, rfl, rfl, rfl, rfl, rfl, rfl, rfl, rfl, rfl, rfl, rfl, rfl, rfl, rfl, rfl, rfl, rfl, rfl, rfl, rfl, rfl, rfl, rfl, rfl, rfl, rfl, rfl, rfl, rfl, rfl, rfl, rfl, rfl, rfl, rfl, rfl, rfl, rfl, rfl, rfl, rfl, rfl, rfl, rfl, rfl, rfl, rfl, rfl⟩

/-- C2: for every supported width, both orders (run-time and static
capabilities alike), and every representable value — including 0, the
minimum, the maximum, and for floats every bit pattern, hence ±0, NaN
payloads and infinities — writing the value into an empty sink and reading
back from the bytes produced yields the value exactly. -/
theorem write_read_roundtrip (e : Endianness) (s : StaticEndianness)
    (vu16 vu32 vu64 vu128 vf32 vf64 : Nat) (xi16 xi32 xi64 xi128 : Int)
    (hu16 : vu16 < 256 ^ 2) (hu32 : vu32 < 256 ^ 4) (hu64 : vu64 < 256 ^ 8)
    (hu128 : vu128 < 256 ^ 16) (hf32 : vf32 < 256 ^ 4) (hf64 : vf64 < 256 ^ 8)
    (hi16a : -(256 ^ 2 : Int) ≤ 2 * xi16) (hi16b : 2 * xi16 < 256 ^ 2)
    (hi32a : -(256 ^ 4 : Int) ≤ 2 * xi32) (hi32b : 2 * xi32 < 256 ^ 4)
    (hi64a : -(256 ^ 8 : Int) ≤ 2 * xi64) (hi64b : 2 * xi64 < 256 ^ 8)
    (hi128a : -(256 ^ 16 : Int) ≤ 2 * xi128) (hi128b : 2 * xi128 < 256 ^ 16) :
    (∃ sink, e.write_u16 Wr.empty vu16 = .ok sink ∧
      e.read_u16 ⟨sink.bytes, none⟩ = .ok (vu16, ⟨[], none⟩)) ∧
    (∃ sink, e.write_u32 Wr.empty vu32 = .ok sink ∧
      e.read_u32 ⟨sink.bytes, none⟩ = .ok (vu32, ⟨[], none⟩)) ∧
    (∃ sink, e.write_u64 Wr.empty vu64 = .ok sink ∧
      e.read_u64 ⟨sink.bytes, none⟩ = .ok (vu64, ⟨[], none⟩)) ∧
    (∃ sink, e.write_u128 Wr.empty vu128 = .ok sink ∧
      e.read_u128 ⟨sink.bytes, none⟩ = .ok (vu128, ⟨[], none⟩)) ∧
    (∃ sink, e.write_f32 Wr.empty vf32 = .ok sink ∧
      e.read_f32 ⟨sink.bytes, none⟩ = .ok (vf32, ⟨[], none⟩)) ∧
    (∃ sink, e.write_f64 Wr.empty vf64 = .ok sink ∧
      e.read_f64 ⟨sink.bytes, none⟩ = .ok (vf64, ⟨[], none⟩)) ∧
    (∃ sink, e.write_i16 Wr.empty xi16 = .ok sink ∧
      e.read_i16 ⟨sink.bytes, none⟩ = .ok (xi16, ⟨[], none⟩)) ∧
    (∃ sink, e.write_i32 Wr.empty xi32 = .ok sink ∧
      e.read_i32 ⟨sink.bytes, none⟩ = .ok (xi32, ⟨[], none⟩)) ∧
    (∃ sink, e.write_i64 Wr.empty xi64 = .ok sink ∧
      e.read_i64 ⟨sink.bytes, none⟩ = .ok (xi64, ⟨[], none⟩)) ∧
    (∃ sink, e.write_i128 Wr.empty xi128 = .ok sink ∧
      e.read_i128 ⟨sink.bytes, none⟩ = .ok (xi128, ⟨[], none⟩)) ∧
    (∃ sink, s.write_u16 Wr.empty vu16 = .ok sink ∧
      s.read_u16 ⟨sink.bytes, none⟩ = .ok (vu16, ⟨[], none⟩)) ∧
    (∃ sink, s.write_u32 Wr.empty vu32 = .ok sink ∧
      s.read_u32 ⟨sink.bytes, none⟩ = .ok (vu32, ⟨[], none⟩)) ∧
    (∃ sink, s.write_u64 Wr.empty vu64 = .ok sink ∧
      s.read_u64 ⟨sink.bytes, none⟩ = .ok (vu64, ⟨[], none⟩)) ∧
    (∃ sink, s.write_u128 Wr.empty vu128 = .ok sink ∧
      s.read_u128 ⟨sink.bytes, none⟩ = .ok (vu128, ⟨[], none⟩)) ∧
    (∃ sink, s.write_f32 Wr.empty vf32 = .ok sink ∧
      s.read_f32 ⟨sink.bytes, none⟩ = .ok (vf32, ⟨[], none⟩)) ∧
    (∃ sink, s.write_f64 Wr.empty vf64 = .ok sink ∧
      s.read_f64 ⟨sink.bytes, none⟩ = .ok (vf64, ⟨[], none⟩)) ∧
    (∃ sink, s.write_i16 Wr.empty xi16 = .ok sink ∧
      s.read_i16 ⟨sink.bytes, none⟩ = .ok (xi16, ⟨[], none⟩)) ∧
    (∃ sink, s.write_i32 Wr.empty xi32 = .ok sink ∧
      s.read_i32 ⟨sink.bytes, none⟩ = .ok (xi32, ⟨[], none⟩)) ∧
    (∃ sink, s.write_i64 Wr.empty xi64 = .ok sink ∧
      s.read_i64 ⟨sink.bytes, none⟩ = .ok (xi64, ⟨[], none⟩)) ∧
    (∃ sink, s.write_i128 Wr.empty xi128 = .ok sink ∧
      s.read_i128 ⟨sink.bytes, none⟩ = .ok (xi128, ⟨[], none⟩)) := by
  obtain ⟨t⟩ := s
  cases e <;> cases t
  case Little.le =>
    exact ⟨rbRead_rbWrite .le 2 vu16 hu16, rbRead_rbWrite .le 4 vu32 hu32, rbRead_rbWrite .le 8 vu64 hu64, rbRead_rbWrite .le 16 vu128 hu128, rbRead_rbWrite .le 4 vf32 hf32, rbRead_rbWrite .le 8 vf64 hf64, rbReadI_rbWriteI .le 2 xi16 hi16a hi16b, rbReadI_rbWriteI .le 4 xi32 hi32a hi32b, rbReadI_rbWriteI .le 8 xi64 hi64a hi64b, rbReadI_rbWriteI .le 16 xi128 hi128a hi128b, rbRead_rbWrite .le 2 vu16 hu16, rbRead_rbWrite .le 4 vu32 hu32, rbRead_rbWrite .le 8 vu64 hu64, rbRead_rbWrite .le 16 vu128 hu128, rbRead_rbWrite .le 4 vf32 hf32, rbRead_rbWrite .le 8 vf64 hf64, rbReadI_rbWriteI .le 2 xi16 hi16a hi16b, rbReadI_rbWriteI .le 4 xi32 hi32a hi32b, rbReadI_rbWriteI .le 8 xi64 hi64a hi64b, rbReadI_rbWriteI .le 16 xi128 hi128a hi128b⟩
  case Little.be =>
    exact ⟨rbRead_rbWrite .le 2 vu16 hu16, rbRead_rbWrite .le 4 vu32 hu32, rbRead_rbWrite .le 8 vu64 hu64, rbRead_rbWrite .le 16 vu128 hu128, rbRead_rbWrite .le 4 vf32 hf32, rbRead_rbWrite .le 8 vf64 hf64, rbReadI_rbWriteI .le 2 xi16 hi16a hi16b, rbReadI_rbWriteI .le 4 xi32 hi32a hi32b, rbReadI_rbWriteI .le 8 xi64 hi64a hi64b, rbReadI_rbWriteI .le 16 xi128 hi128a hi128b, rbRead_rbWrite .be 2 vu16 hu16, rbRead_rbWrite .be 4 vu32 hu32, rbRead_rbWrite .be 8 vu64 hu64, rbRead_rbWrite .be 16 vu128 hu128, rbRead_rbWrite .be 4 vf32 hf32, rbRead_rbWrite .be 8 vf64 hf64, rbReadI_rbWriteI .be 2 xi16 hi16a hi16b, rbReadI_rbWriteI .be 4 xi32 hi32a hi32b, rbReadI_rbWriteI .be 8 xi64 hi64a hi64b, rbReadI_rbWriteI .be 16 xi128 hi128a hi128b⟩
  case Big.le =>
    exact ⟨rbRead_rbWrite .be 2 vu16 hu16, rbRead_rbWrite .be 4 vu32 hu32, rbRead_rbWrite .be 8 vu64 hu64, rbRead_rbWrite .be 16 vu128 hu128, rbRead_rbWrite .be 4 vf32 hf32, rbRead_rbWrite .be 8 vf64 hf64, rbReadI_rbWriteI .be 2 xi16 hi16a hi16b, rbReadI_rbWriteI .be 4 xi32 hi32a hi32b, rbReadI_rbWriteI .be 8 xi64 hi64a hi64b, rbReadI_rbWriteI .be 16 xi128 hi128a hi128b, rbRead_rbWrite .le 2 vu16 hu16, rbRead_rbWrite .le 4 vu32 hu32, rbRead_rbWrite .le 8 vu64 hu64, rbRead_rbWrite .le 16 vu128 hu128, rbRead_rbWrite .le 4 vf32 hf32, rbRead_rbWrite .le 8 vf64 hf64, rbReadI_rbWriteI .le 2 xi16 hi16a hi16b, rbReadI_rbWriteI .le 4 xi32 hi32a hi32b, rbReadI_rbWriteI .le 8 xi64 hi64a hi64b, rbReadI_rbWriteI .le 16 xi128 hi128a hi128b⟩
  case Big.be =>
    exact ⟨rbRead_rbWrite .be 2 vu16 hu16, rbRead_rbWrite .be 4 vu32 hu32, rbRead_rbWrite .be 8 vu64 hu64, rbRead_rbWrite .be 16 vu128 hu128, rbRead_rbWrite .be 4 vf32 hf32, rbRead_rbWrite .be 8 vf64 hf64, rbReadI_rbWriteI .be 2 xi16 hi16a hi16b, rbReadI_rbWriteI .be 4 xi32 hi32a hi32b, rbReadI_rbWriteI .be 8 xi64 hi64a hi64b, rbReadI_rbWriteI .be 16 xi128 hi128a hi128b, rbRead_rbWrite .be 2 vu16 hu16, rbRead_rbWrite .be 4 vu32 hu32, rbRead_rbWrite .be 8 vu64 hu64, rbRead_rbWrite .be 16 vu128 hu128, rbRead_rbWrite .be 4 vf32 hf32, rbRead_rbWrite .be 8 vf64 hf64, rbReadI_rbWriteI .be 2 xi16 hi16a hi16b, rbReadI_rbWriteI .be 4 xi32 hi32a hi32b, rbReadI_rbWriteI .be 8 xi64 hi64a hi64b, rbReadI_rbWriteI .be 16 xi128 hi128a hi128b⟩

theorem write_read_roundtrip_witness :
    ∃ sink, Endianness.Little.write_u16 Wr.empty 65535 = .ok sink ∧
      Endianness.Little.read_u16 ⟨sink.bytes, none⟩ = .ok (65535, ⟨[], none⟩) :=
  (write_read_roundtrip Endianness.Little ⟨.be⟩ 65535 0 18446744073709551615
    340282366920938463463374607431768211455 2143289344 9218868437227405312
    (-32768) 2147483647 (-9223372036854775808)
    (-170141183460469231731687303715884105728)
    (by norm_num) (by norm_num) (by norm_num) (by norm_num) (by norm_num)
    (by norm_num) (by norm_num) (by norm_num) (by norm_num) (by norm_num)
    (by norm_num) (by norm_num) (by norm_num) (by norm_num)).1

/-- C3: the byte sequence `12 34 56 78 21 43 65 87` read as one 64-bit
unsigned integer yields `0x87654321_78563412` under `Endianness::Little` and
`0x12345678_21436587` under `Endianness::Big`, both through the capability
directly and through a `ByteOrdered` wrapper holding it. -/
theorem read_u64_concrete :
    Endianness.Little.read_u64 ⟨[0x12, 0x34, 0x56, 0x78, 0x21, 0x43, 0x65, 0x87], none⟩
      = .ok (0x8765432178563412, ⟨[], none⟩) ∧
    Endianness.Big.read_u64 ⟨[0x12, 0x34, 0x56, 0x78, 0x21, 0x43, 0x65, 0x87], none⟩
      = .ok (0x1234567821436587, ⟨[], none⟩) ∧
    (ByteOrdered.runtime ⟨[0x12, 0x34, 0x56, 0x78, 0x21, 0x43, 0x65, 0x87], none⟩
        Endianness.Little).read_u64
      = .ok (0x8765432178563412, ⟨⟨[], none⟩, Endianness.Little⟩) ∧
    (ByteOrdered.runtime ⟨[0x12, 0x34, 0x56, 0x78, 0x21, 0x43, 0x65, 0x87], none⟩
        Endianness.Big).read_u64
      = .ok (0x1234567821436587, ⟨⟨[], none⟩, Endianness.Big⟩) := by
  refine ⟨?_, ?_, ?_, ?_⟩ <;> rfl

/-- C4: applying `into_opposite` twice yields a capability that behaves
identically — indeed is equal — for both the run-time enum and the static
order tags; in particular `to_opposite (to_opposite e) = e` for both
enumerators of `Endianness`. -/
theorem opposite_involution (e : Endianness) (s : StaticEndianness)
    (r : Rd) (sink : Wr) (v : Nat) :
    e.to_opposite.to_opposite = e ∧
    e.into_opposite.into_opposite = e ∧
    s.into_opposite.into_opposite = s ∧
    e.into_opposite.into_opposite.read_u64 r = e.read_u64 r ∧
    e.into_opposite.into_opposite.write_u16 sink v = e.write_u16 sink v ∧
    s.into_opposite.into_opposite.read_u64 r = s.read_u64 r ∧
    s.into_opposite.into_opposite.write_u16 sink v = s.write_u16 sink v := by
  obtain ⟨t⟩ := s
  cases e <;> cases t <;> exact ⟨rfl, rfl, rfl, rfl, rfl, rfl, rfl⟩

/-- C5: `is_native()` is true exactly for the capability denoting the build
platform's byte order (little endian here) and false for its opposite, for
the run-time enum and the static order tags alike. -/
theorem native_correct :
    Endianness.native.is_native = true ∧
    Endianness.native.to_opposite.is_native = false ∧
    Endianness.Little.is_native = true ∧
    Endianness.Big.is_native = false ∧
    StaticEndianness.native.is_native = true ∧
    StaticEndianness.native.into_opposite.is_native = false ∧
    (StaticEndianness.mk .le).is_native = true ∧
    (StaticEndianness.mk .be).is_native = false := by
  decide

/-- C6: the single-byte operations `read_u8`, `read_i8`, `write_u8` and
`write_i8` of the wrapper produce the same value (or error) and leave the
endpoint in the same state for every choice of held capability, of any
capability type: one byte has no order. -/
theorem single_byte_order_invariant (E₁ E₂ : Type) (e₁ : E₁) (e₂ : E₂)
    (r : Rd) (sink : Wr) (v : Nat) (x : Int) :
    (ByteOrdered.new r e₁).read_u8.map (fun p => (p.1, p.2.inner))
      = (ByteOrdered.new r e₂).read_u8.map (fun p => (p.1, p.2.inner)) ∧
    (ByteOrdered.new r e₁).read_i8.map (fun p => (p.1, p.2.inner))
      = (ByteOrdered.new r e₂).read_i8.map (fun p => (p.1, p.2.inner)) ∧
    ((ByteOrdered.new sink e₁).write_u8 v).map ByteOrdered.inner
      = ((ByteOrdered.new sink e₂).write_u8 v).map ByteOrdered.inner ∧
    ((ByteOrdered.new sink e₁).write_i8 x).map ByteOrdered.inner
      = ((ByteOrdered.new sink e₂).write_i8 x).map ByteOrdered.inner := by
  refine ⟨?_, ?_, ?_, ?_⟩
  · rcases h : readExact r 1 with er | p <;>
      simp [ByteOrdered.read_u8, ByteOrdered.new, h, Except.map]
  · rcases h : readExact r 1 with er | p <;>
      simp [ByteOrdered.read_i8, ByteOrdered.new, h, Except.map]
  · rcases h : writeAll sink [v % 256] with er | w' <;>
      simp [ByteOrdered.write_u8, ByteOrdered.new, h, Except.map]
  · rcases h : writeAll sink [toUnsigned 1 x] with er | w' <;>
      simp [ByteOrdered.write_i8, ByteOrdered.new, h, Except.map]

/-- C8: replacing the wrapper's held capability — via `set_endianness`,
`into_endianness`, `into_le`, `into_be`, `into_native` or `into_opposite` —
leaves the underlying endpoint exactly as held (no byte consumed or
produced), and `into_inner` returns the endpoint exactly as the wrapper held
it, discarding only the order information. -/
theorem reorder_preserves_endpoint (T E E₂ : Type) (inner : T)
    (cap cap' : E) (cap2 : E₂) (er : Endianness) (s : StaticEndianness) :
    (ByteOrdered.new inner cap).into_inner = inner ∧
    ((ByteOrdered.new inner cap).set_endianness cap').inner = inner ∧
    ((ByteOrdered.new inner cap).into_endianness cap2).inner = inner ∧
    (ByteOrdered.new inner cap).into_le.inner = inner ∧
    (ByteOrdered.new inner cap).into_be.inner = inner ∧
    (ByteOrdered.new inner cap).into_native.inner = inner ∧
    (ByteOrdered.new inner er).into_opposite.inner = inner ∧
    (ByteOrdered.new inner s).into_opposite.inner = inner ∧
    ((ByteOrdered.new inner cap).set_endianness cap').endianness = cap' ∧
    ((ByteOrdered.new inner cap).into_endianness cap2).endianness = cap2 := by
  exact ⟨rfl, rfl, rfl, rfl, rfl, rfl, rfl, rfl, rfl, rfl⟩

/-- C10: the wrapper's fourth constructor `ByteOrdered::network` builds the
very same wrapper as `ByteOrdered::be` — network order is big endian
(`NetworkEndian` is an alias of `BigEndian`) — so every operation behaves
identically. -/
theorem network_is_be (T : Type) (inner : T) (r r' : Rd) (sink : Wr) (v : Nat) :
    ByteOrdered.network inner = ByteOrdered.be inner ∧
    (ByteOrdered.network r).endianness.read_u64 r'
      = (ByteOrdered.be r).endianness.read_u64 r' ∧
    (ByteOrdered.network r).endianness.write_u16 sink v
      = (ByteOrdered.be r).endianness.write_u16 sink v ∧
    (ByteOrdered.network inner).get_endianness = StaticEndianness.mk .be := by
  exact ⟨rfl, rfl, rfl, rfl⟩

/-- C7: for every width and both orders, a read on a source holding fewer
bytes than the width fails with the unexpected-end-of-input classification of
the underlying `read_exact` primitive; any other I/O fault of the underlying
source is returned to the caller unchanged; and on success exactly
`sizeof(W)` bytes are consumed. -/
theorem read_error_classification (e : Endianness) (r : Rd) (c : Nat) :
    ((r.fault = none → r.bytes.length < 2 → e.read_i16 r = .error .unexpectedEof) ∧
     (r.fault = some c → r.bytes.length < 2 → e.read_i16 r = .error (.other c)) ∧
     (2 ≤ r.bytes.length → ∃ v, e.read_i16 r = .ok (v, ⟨r.bytes.drop 2, r.fault⟩))) ∧
    ((r.fault = none → r.bytes.length < 2 → e.read_u16 r = .error .unexpectedEof) ∧
     (r.fault = some c → r.bytes.length < 2 → e.read_u16 r = .error (.other c)) ∧
     (2 ≤ r.bytes.length → ∃ v, e.read_u16 r = .ok (v, ⟨r.bytes.drop 2, r.fault⟩))) ∧
    ((r.fault = none → r.bytes.length < 4 → e.read_i32 r = .error .unexpectedEof) ∧
     (r.fault = some c → r.bytes.length < 4 → e.read_i32 r = .error (.other c)) ∧
     (4 ≤ r.bytes.length → ∃ v, e.read_i32 r = .ok (v, ⟨r.bytes.drop 4, r.fault⟩))) ∧
    ((r.fault = none → r.bytes.length < 4 → e.read_u32 r = .error .unexpectedEof) ∧
     (r.fault = some c → r.bytes.length < 4 → e.read_u32 r = .error (.other c)) ∧
     (4 ≤ r.bytes.length → ∃ v, e.read_u32 r = .ok (v, ⟨r.bytes.drop 4, r.fault⟩))) ∧
    ((r.fault = none → r.bytes.length < 8 → e.read_i64 r = .error .unexpectedEof) ∧
     (r.fault = some c → r.bytes.length < 8 → e.read_i64 r = .error (.other c)) ∧
     (8 ≤ r.bytes.length → ∃ v, e.read_i64 r = .ok (v, ⟨r.bytes.drop 8, r.fault⟩))) ∧
    ((r.fault = none → r.bytes.length < 8 → e.read_u64 r = .error .unexpectedEof) ∧
     (r.fault = some c → r.bytes.length < 8 → e.read_u64 r = .error (.other c)) ∧
     (8 ≤ r.bytes.length → ∃ v, e.read_u64 r = .ok (v, ⟨r.bytes.drop 8, r.fault⟩))) ∧
    ((r.fault = none → r.bytes.length < 16 → e.read_i128 r = .error .unexpectedEof) ∧
     (r.fault = some c → r.bytes.length < 16 → e.read_i128 r = .error (.other c)) ∧
     (16 ≤ r.bytes.length → ∃ v, e.read_i128 r = .ok (v, ⟨r.bytes.drop 16, r.fault⟩))) ∧
    ((r.fault = none → r.bytes.length < 16 → e.read_u128 r = .error .unexpectedEof) ∧
     (r.fault = some c → r.bytes.length < 16 → e.read_u128 r = .error (.other c)) ∧
     (16 ≤ r.bytes.length → ∃ v, e.read_u128 r = .ok (v, ⟨r.bytes.drop 16, r.fault⟩))) ∧
    ((r.fault = none → r.bytes.length < 4 → e.read_f32 r = .error .unexpectedEof) ∧
     (r.fault = some c → r.bytes.length < 4 → e.read_f32 r = .error (.other c)) ∧
     (4 ≤ r.bytes.length → ∃ v, e.read_f32 r = .ok (v, ⟨r.bytes.drop 4, r.fault⟩))) ∧
    ((r.fault = none → r.bytes.length < 8 → e.read_f64 r = .error .unexpectedEof) ∧
     (r.fault = some c → r.bytes.length < 8 → e.read_f64 r = .error (.other c)) ∧
     (8 ≤ r.bytes.length → ∃ v, e.read_f64 r = .ok (v, ⟨r.bytes.drop 8, r.fault⟩))) := by
  cases e
  · exact ⟨⟨fun hf hl => rbReadI_short .le 2 r hf hl, fun hf hl => rbReadI_fault .le 2 c r hf hl, fun hl => ⟨_, rbReadI_ok .le 2 r hl⟩⟩,
      ⟨fun hf hl => rbRead_short .le 2 r hf hl, fun hf hl => rbRead_fault .le 2 c r hf hl, fun hl => ⟨_, rbRead_ok .le 2 r hl⟩⟩,
      ⟨fun hf hl => rbReadI_short .le 4 r hf hl, fun hf hl => rbReadI_fault .le 4 c r hf hl, fun hl => ⟨_, rbReadI_ok .le 4 r hl⟩⟩,
      ⟨fun hf hl => rbRead_short .le 4 r hf hl, fun hf hl => rbRead_fault .le 4 c r hf hl, fun hl => ⟨_, rbRead_ok .le 4 r hl⟩⟩,
      ⟨fun hf hl => rbReadI_short .le 8 r hf hl, fun hf hl => rbReadI_fault .le 8 c r hf hl, fun hl => ⟨_, rbReadI_ok .le 8 r hl⟩⟩,
      ⟨fun hf hl => rbRead_short .le 8 r hf hl, fun hf hl => rbRead_fault .le 8 c r hf hl, fun hl => ⟨_, rbRead_ok .le 8 r hl⟩⟩,
      ⟨fun hf hl => rbReadI_short .le 16 r hf hl, fun hf hl => rbReadI_fault .le 16 c r hf hl, fun hl => ⟨_, rbReadI_ok .le 16 r hl⟩⟩,
      ⟨fun hf hl => rbRead_short .le 16 r hf hl, fun hf hl => rbRead_fault .le 16 c r hf hl, fun hl => ⟨_, rbRead_ok .le 16 r hl⟩⟩,
      ⟨fun hf hl => rbRead_short .le 4 r hf hl, fun hf hl => rbRead_fault .le 4 c r hf hl, fun hl => ⟨_, rbRead_ok .le 4 r hl⟩⟩,
      ⟨fun hf hl => rbRead_short .le 8 r hf hl, fun hf hl => rbRead_fault .le 8 c r hf hl, fun hl => ⟨_, rbRead_ok .le 8 r hl⟩⟩⟩
  · exact ⟨⟨fun hf hl => rbReadI_short .be 2 r hf hl, fun hf hl => rbReadI_fault .be 2 c r hf hl, fun hl => ⟨_, rbReadI_ok .be 2 r hl⟩⟩,
      ⟨fun hf hl => rbRead_short .be 2 r hf hl, fun hf hl => rbRead_fault .be 2 c r hf hl, fun hl => ⟨_, rbRead_ok .be 2 r hl⟩⟩,
      ⟨fun hf hl => rbReadI_short .be 4 r hf hl, fun hf hl => rbReadI_fault .be 4 c r hf hl, fun hl => ⟨_, rbReadI_ok .be 4 r hl⟩⟩,
      ⟨fun hf hl => rbRead_short .be 4 r hf hl, fun hf hl => rbRead_fault .be 4 c r hf hl, fun hl => ⟨_, rbRead_ok .be 4 r hl⟩⟩,
      ⟨fun hf hl => rbReadI_short .be 8 r hf hl, fun hf hl => rbReadI_fault .be 8 c r hf hl, fun hl => ⟨_, rbReadI_ok .be 8 r hl⟩⟩,
      ⟨fun hf hl => rbRead_short .be 8 r hf hl, fun hf hl => rbRead_fault .be 8 c r hf hl, fun hl => ⟨_, rbRead_ok .be 8 r hl⟩⟩,
      ⟨fun hf hl => rbReadI_short .be 16 r hf hl, fun hf hl => rbReadI_fault .be 16 c r hf hl, fun hl => ⟨_, rbReadI_ok .be 16 r hl⟩⟩,
      ⟨fun hf hl => rbRead_short .be 16 r hf hl, fun hf hl => rbRead_fault .be 16 c r hf hl, fun hl => ⟨_, rbRead_ok .be 16 r hl⟩⟩,
      ⟨fun hf hl => rbRead_short .be 4 r hf hl, fun hf hl => rbRead_fault .be 4 c r hf hl, fun hl => ⟨_, rbRead_ok .be 4 r hl⟩⟩,
      ⟨fun hf hl => rbRead_short .be 8 r hf hl, fun hf hl => rbRead_fault .be 8 c r hf hl, fun hl => ⟨_, rbRead_ok .be 8 r hl⟩⟩⟩

theorem read_error_classification_witness :
    Endianness.Little.read_i16 ⟨[0], none⟩ = .error .unexpectedEof ∧
    Endianness.Big.read_u64 ⟨[1, 2, 3], some 5⟩ = .error (.other 5) :=
  ⟨(read_error_classification Endianness.Little ⟨[0], none⟩ 0).1.1 rfl (by decide),
   ((read_error_classification Endianness.Big ⟨[1, 2, 3], some 5⟩ 5).2.2.2.2.2.1).2.1
     rfl (by decide)⟩

theorem stepStatic_little (op : BlockOp) (st : Rd × Wr) :
    stepStatic ⟨.le⟩ op st = stepRuntime Endianness.Little op st := by
  cases op <;> rfl

theorem stepStatic_big (op : BlockOp) (st : Rd × Wr) :
    stepStatic ⟨.be⟩ op st = stepRuntime Endianness.Big op st := by
  cases op <;> rfl

theorem runBlockStatic_little (prog : List BlockOp) :
    ∀ st, runBlockStatic ⟨.le⟩ prog st = runBlockRuntime Endianness.Little prog st := by
  induction prog with
  | nil => intro st; rfl
  | cons op rest ih =>
    intro st
    rw [runBlockStatic, runBlockRuntime, stepStatic_little op st]
    cases hs : stepRuntime Endianness.Little op st with
    | error er => rfl
    | ok p => simp [ih p.2]

theorem runBlockStatic_big (prog : List BlockOp) :
    ∀ st, runBlockStatic ⟨.be⟩ prog st = runBlockRuntime Endianness.Big prog st := by
  induction prog with
  | nil => intro st; rfl
  | cons op rest ih =>
    intro st
    rw [runBlockStatic, runBlockRuntime, stepStatic_big op st]
    cases hs : stepRuntime Endianness.Big op st with
    | error er => rfl
    | ok p => simp [ih p.2]

/-- C9: for every run-time order value and every block of operations,
executing the block through the Scoped Dispatch construct — which resolves
the order once into the matching static capability — produces the same
result (values read, error if any) and the same effects on the endpoints as
executing the same logical operations through the run-time dispatched
capability directly. -/
theorem with_order_equiv_runtime (e : Endianness) (prog : List BlockOp) (st : Rd × Wr) :
    with_order e prog st = runBlockRuntime e prog st := by
  cases e with
  | Little => exact runBlockStatic_little prog st
  | Big => exact runBlockStatic_big prog st
